import Mathlib

/-!
# wlc virtual-terminal session (src/session/tty.c)

A shallow embedding of the VT session code of wlc: the process-wide session
record, the claim sequence `setup_tty`, the restoration `wlc_tty_terminate`,
the switch request `wlc_tty_activate_vt`, the signal handler and the two
public activate / deactivate operations.

The C code talks to the kernel (fstat, ioctl, close) and to a collaborator
(`wlc_set_active`, `wlc_fd_activate`, `wlc_fd_deactivate`).  Both are replaced
by mocks: a record (`World.log`) to which every call is appended together with
its answer, in program order, and an oracle that answers a call from its
position in that record and from the call itself.  The code is deterministic,
so whatever a stateful kernel answers along a run is the answer of such an
oracle.
-/

namespace Wlc

/-! ## Constants of the kernel headers -/

/-- Console text mode (linux/kd.h). -/
def KD_TEXT : Int := 0
/-- Console graphics mode (linux/kd.h). -/
def KD_GRAPHICS : Int := 1
/-- Keyboard mode with decoding switched off (linux/kd.h). -/
def K_OFF : Int := 4
/-- Kernel-driven VT switching (linux/vt.h). -/
def VT_AUTO : Int := 0
/-- Process-controlled VT switching (linux/vt.h). -/
def VT_PROCESS : Int := 1
/-- Acknowledge-acquisition code of VT_RELDISP (linux/vt.h). -/
def VT_ACKACQ : Int := 2
/-- Major number of the console character devices (linux/major.h). -/
def TTY_MAJOR : Nat := 4
/-- Signal number of SIGUSR1 (signal.h, Linux generic numbering). -/
def SIGUSR1 : Int := 10
/-- Signal number of SIGUSR2 (signal.h, Linux generic numbering). -/
def SIGUSR2 : Int := 12

/-! ## Data model -/

/-- The anonymous member `old_state` of the static `wlc` record: what is saved
for the restoration. -/
structure OldState where
  kb_mode : Int
  vt : Int
  deriving DecidableEq, Repr

/-- The static `wlc` record of tty.c (Session State): saved state, descriptor
and owned VT number. -/
structure Session where
  old_state : OldState
  tty : Int
  vt : Int
  deriving DecidableEq, Repr

/-- The initialiser of the static record, which is also what
`memset(&wlc, 0, sizeof(wlc)); wlc.tty = -1;` leaves behind. -/
def Session.empty : Session :=
  { old_state := { kb_mode := 0, vt := 0 }, tty := -1, vt := 0 }

/-- The `struct vt_mode` argument of VT_SETMODE (linux/vt.h). -/
structure vt_mode where
  mode : Int
  waitv : Int
  relsig : Int
  acqsig : Int
  frsig : Int
  deriving DecidableEq, Repr

/-- The ioctl requests used by tty.c. -/
inductive Request where
  | KDGETMODE
  | KDSETMODE
  | KDGKBMODE
  | KDSKBMODE
  | KDSKBMUTE
  | VT_GETSTATE
  | VT_ACTIVATE
  | VT_WAITACTIVE
  | VT_SETMODE
  | VT_RELDISP
  deriving DecidableEq, Repr

/-- The third argument of an ioctl: an integer passed by value, the address of
a buffer the kernel fills in, or the address of a `struct vt_mode`. -/
inductive Arg where
  | val (v : Int)
  | out
  | mode (m : vt_mode)
  deriving DecidableEq, Repr

/-- A kernel call issued by tty.c on a descriptor. -/
inductive Call where
  | fstat (fd : Int)
  | ioctl (fd : Int) (request : Request) (arg : Arg)
  | close (fd : Int)
  deriving DecidableEq, Repr

/-- What the kernel answers: the return value of the call, the value it stored
through an out pointer (the `int` for KDGETMODE and KDGKBMODE, the field
`v_active` of `struct vt_stat` for VT_GETSTATE), and for fstat the major and
minor numbers of `st_rdev`, as the `unsigned int` values that `major()` and
`minor()` return. -/
structure Reply where
  ret : Int
  out : Int
  major : Nat
  minor : Nat
  deriving DecidableEq, Repr

/-- One recorded call: a kernel call with its answer, or a call into the
collaborator (`wlc_fd_activate` and `wlc_fd_deactivate` with the boolean they
returned). -/
inductive Event where
  | sys (c : Call) (r : Reply)
  | wlc_set_active (active : Bool)
  | wlc_fd_activate (ok : Bool)
  | wlc_fd_deactivate (ok : Bool)
  deriving DecidableEq, Repr

/-- The mocks: each answer may depend on the number of calls recorded before
it, and for the kernel on the call. -/
structure Env where
  kernel : Nat → Call → Reply
  fd_activate : Nat → Bool
  fd_deactivate : Nat → Bool

/-- The session record together with the record of calls made so far. -/
structure World where
  wlc : Session
  log : List Event

/-- The places where tty.c calls `die`, one constructor per message. -/
inductive Fatal where
  | could_not_stat_tty_fd
  | not_a_valid_vt
  | could_not_get_vt_mode
  | already_in_graphics_mode
  | could_not_get_current_vt
  | could_not_activate_vt
  | could_not_wait_for_vt
  | could_not_get_keyboard_mode
  | could_not_set_keyboard_mode_to_K_OFF
  | could_not_set_console_mode_to_KD_GRAPHICS
  | could_not_set_vt_mode
  | failed_to_activate_tty
  | failed_to_release_tty
  deriving DecidableEq, Repr

/-- Modelled from the spec: `die` is declared in internal.h, which is not part
of the sources at hand.  The spec calls every such failure fatal: it is
surfaced immediately and the process terminates.  A function therefore either
returns a value or ends the process at one of the `die` sites. -/
inductive Outcome (α : Type) where
  | ret (a : α)
  | died (f : Fatal)
  deriving DecidableEq, Repr

/-! ## Machine integers -/

/-- The conversion of an `unsigned int` to `int`, as in
`wlc.vt = minor(st.st_rdev)`: values from 2^31 on wrap to the negative
numbers. -/
def int_of_unsigned (n : Nat) : Int :=
  if n % 4294967296 < 2147483648 then ((n % 4294967296 : Nat) : Int)
  else ((n % 4294967296 : Nat) : Int) - 4294967296

/-- What a `long` holds after the kernel stored the `int` `v` at its address,
as KDGKBMODE does with `&wlc.old_state.kb_mode`: with an 8-byte little-endian
`long` the store replaces the low 32 bits (by the bits of `v`) and keeps the
high 32 bits of the old value. -/
def store_int_in_long (old v : Int) : Int :=
  old - old % 4294967296 + v % 4294967296

/-! ## Mock plumbing -/

/-- Issue a kernel call: ask the mock kernel, record call and answer. -/
def sys (env : Env) (w : World) (c : Call) : Reply × World :=
  let r := env.kernel w.log.length c
  (r, { w with log := w.log ++ [Event.sys c r] })

/-- `ioctl(fd, request, arg)`. -/
def ioctl (env : Env) (w : World) (fd : Int) (request : Request) (arg : Arg) : Reply × World :=
  sys env w (Call.ioctl fd request arg)

/-- Modelled from the spec: `wlc_set_active` is defined outside tty.c.  The
spec describes it as the one-way notification "session active-state changed"
of the external collaborator; the mock records the call and leaves the
session record alone. -/
def wlc_set_active (w : World) (active : Bool) : World :=
  { w with log := w.log ++ [Event.wlc_set_active active] }

/-- Modelled from the spec: `wlc_fd_activate` is defined outside tty.c.  The
spec describes it as the boolean-returning check of the collaborator; the
mock answers from the oracle and records the call with its answer. -/
def wlc_fd_activate (env : Env) (w : World) : Bool × World :=
  let b := env.fd_activate w.log.length
  (b, { w with log := w.log ++ [Event.wlc_fd_activate b] })

/-- Modelled from the spec: `wlc_fd_deactivate` is defined outside tty.c.  The
spec describes it as the boolean-returning check of the collaborator; the
mock answers from the oracle and records the call with its answer. -/
def wlc_fd_deactivate (env : Env) (w : World) : Bool × World :=
  let b := env.fd_deactivate w.log.length
  (b, { w with log := w.log ++ [Event.wlc_fd_deactivate b] })

/-! ## The functions of tty.c

`wlc_log` only writes a line to the log stream; it is left out of the
record. -/

/-- `wlc_tty_terminate`: the restoration.  Every ioctl result is ignored. -/
def wlc_tty_terminate (env : Env) (w : World) : World :=
  let w :=
    if 0 ≤ w.wlc.tty then
      let w := (ioctl env w w.wlc.tty Request.VT_ACTIVATE (Arg.val w.wlc.vt)).2
      let w := (ioctl env w w.wlc.tty Request.VT_WAITACTIVE (Arg.val w.wlc.vt)).2
      let w := (ioctl env w w.wlc.tty Request.KDSKBMUTE (Arg.val 0)).2
      let w := (ioctl env w w.wlc.tty Request.KDSKBMODE (Arg.val w.wlc.old_state.kb_mode)).2
      let w := (ioctl env w w.wlc.tty Request.KDSETMODE (Arg.val KD_TEXT)).2
      let mode : vt_mode := { mode := VT_AUTO, waitv := 0, relsig := 0, acqsig := 0, frsig := 0 }
      let w := (ioctl env w w.wlc.tty Request.VT_SETMODE (Arg.mode mode)).2
      let w := (ioctl env w w.wlc.tty Request.VT_ACTIVATE (Arg.val w.wlc.old_state.vt)).2
      (sys env w (Call.close w.wlc.tty)).2
    else w
  { w with wlc := Session.empty }

/-- The end of `setup_tty`, lines 123 to 139: graphics mode and
process-controlled switching.  It is a definition of its own because the mute
step before it reaches it on two paths (mute accepted, or K_OFF accepted). -/
def setup_tty_graphics (env : Env) (w : World) (fd : Int) : Outcome Bool × World :=
  let (r, w) := ioctl env w fd Request.KDSETMODE (Arg.val KD_GRAPHICS)
  if r.ret = -1 then
    (Outcome.died Fatal.could_not_set_console_mode_to_KD_GRAPHICS, wlc_tty_terminate env w) else
  let mode : vt_mode :=
    { mode := VT_PROCESS, waitv := 0, relsig := SIGUSR1, acqsig := SIGUSR2, frsig := 0 }
  let (r, w) := ioctl env w fd Request.VT_SETMODE (Arg.mode mode)
  if r.ret = -1 then (Outcome.died Fatal.could_not_set_vt_mode, wlc_tty_terminate env w) else
  (Outcome.ret true, w)

/-- The middle of `setup_tty`, lines 100 to 121: from the VT_GETSTATE query to
the mute step.  It is a definition of its own because the text-mode check
before it reaches it on two paths.  The condition
`ioctl(fd, KDSKBMUTE, 1) == -1 && ioctl(fd, KDSKBMODE, K_OFF) == -1` is
written out with its short circuit: the second call is made only when the
first returned -1.  KDGKBMODE stores the mode, an `int`, at the address of the
`long` field `wlc.old_state.kb_mode`; the kernel stores it only when the call
succeeds, so the field is updated on the path where the call returned 0. -/
def setup_tty_claim (env : Env) (w : World) (fd : Int) : Outcome Bool × World :=
  let (state, w) := ioctl env w fd Request.VT_GETSTATE Arg.out
  if state.ret = -1 then (Outcome.died Fatal.could_not_get_current_vt, w) else
  let w := { w with wlc := { w.wlc with old_state := { w.wlc.old_state with vt := state.out } } }
  let (r, w) := ioctl env w fd Request.VT_ACTIVATE (Arg.val w.wlc.vt)
  if r.ret = -1 then (Outcome.died Fatal.could_not_activate_vt, w) else
  let (r, w) := ioctl env w fd Request.VT_WAITACTIVE (Arg.val w.wlc.vt)
  if r.ret = -1 then (Outcome.died Fatal.could_not_wait_for_vt, w) else
  let (kb, w) := ioctl env w fd Request.KDGKBMODE Arg.out
  if kb.ret ≠ 0 then (Outcome.died Fatal.could_not_get_keyboard_mode, w) else
  let w := { w with wlc := { w.wlc with old_state :=
    { w.wlc.old_state with kb_mode := store_int_in_long w.wlc.old_state.kb_mode kb.out } } }
  -- vt will be restored from now on
  let w := { w with wlc := { w.wlc with tty := fd } }
  let (mute, w) := ioctl env w fd Request.KDSKBMUTE (Arg.val 1)
  if mute.ret = -1 then
    let (off, w) := ioctl env w fd Request.KDSKBMODE (Arg.val K_OFF)
    if off.ret = -1 then
      (Outcome.died Fatal.could_not_set_keyboard_mode_to_K_OFF, wlc_tty_terminate env w)
    else setup_tty_graphics env w fd
  else setup_tty_graphics env w fd

/-- `setup_tty`: the claim sequence, lines 76 to 98, continued by
`setup_tty_claim`.  `wlc.vt = minor(st.st_rdev)` converts the `unsigned int`
minor number to the `int` field. -/
def setup_tty (env : Env) (w : World) (fd : Int) (replace_vt : Bool) : Outcome Bool × World :=
  if fd < 0 then (Outcome.ret false, w) else
  let (st, w) := sys env w (Call.fstat fd)
  if st.ret = -1 then (Outcome.died Fatal.could_not_stat_tty_fd, w) else
  let w := { w with wlc := { w.wlc with vt := int_of_unsigned st.minor } }
  if st.major ≠ TTY_MAJOR ∨ w.wlc.vt = 0 then (Outcome.died Fatal.not_a_valid_vt, w) else
  if !replace_vt then
    let (kd, w) := ioctl env w fd Request.KDGETMODE Arg.out
    if kd.ret = -1 then (Outcome.died Fatal.could_not_get_vt_mode, w) else
    if kd.out ≠ KD_TEXT then (Outcome.died Fatal.already_in_graphics_mode, w) else
    setup_tty_claim env w fd
  else
    setup_tty_claim env w fd

/-- `sigusr_handler`: the handler installed for SIGUSR1 and SIGUSR2. -/
def sigusr_handler (w : World) (signal : Int) : World :=
  if signal = SIGUSR1 then wlc_set_active w false
  else if signal = SIGUSR2 then wlc_set_active w true
  else w

/-- `wlc_tty_activate`. -/
def wlc_tty_activate (env : Env) (w : World) : Outcome Unit × World :=
  let (ok, w) := wlc_fd_activate env w
  if !ok then (Outcome.died Fatal.failed_to_activate_tty, w) else
  let w := (ioctl env w w.wlc.tty Request.VT_RELDISP (Arg.val VT_ACKACQ)).2
  (Outcome.ret (), w)

/-- `wlc_tty_deactivate`. -/
def wlc_tty_deactivate (env : Env) (w : World) : Outcome Unit × World :=
  let (ok, w) := wlc_fd_deactivate env w
  if !ok then (Outcome.died Fatal.failed_to_release_tty, w) else
  let w := (ioctl env w w.wlc.tty Request.VT_RELDISP (Arg.val 1)).2
  (Outcome.ret (), w)

/-- `wlc_tty_activate_vt`. -/
def wlc_tty_activate_vt (env : Env) (w : World) (vt : Int) : Bool × World :=
  if w.wlc.tty < 0 ∨ vt = w.wlc.vt then (false, w) else
  let (r, w) := ioctl env w w.wlc.tty Request.VT_ACTIVATE (Arg.val vt)
  (decide (r.ret ≠ -1), w)

/-- `wlc_tty_get_vt`. -/
def wlc_tty_get_vt (w : World) : Int :=
  w.wlc.vt

/-! ## Observers on the record -/

/-- The kernel calls of a record, in order. -/
def kernelCalls : List Event → List Call
  | [] => []
  | Event.sys c _ :: es => c :: kernelCalls es
  | _ :: es => kernelCalls es

/-- The events recorded between world `w` and a later world `w2`. -/
def issued (w w2 : World) : List Event :=
  w2.log.drop w.log.length

/-- The sequence of kernel calls of the restoration on descriptor `fd`, for
the owned VT `vt` and the saved state `old`. -/
def restoreCalls (fd vt : Int) (old : OldState) : List Call :=
  [ Call.ioctl fd Request.VT_ACTIVATE (Arg.val vt),
    Call.ioctl fd Request.VT_WAITACTIVE (Arg.val vt),
    Call.ioctl fd Request.KDSKBMUTE (Arg.val 0),
    Call.ioctl fd Request.KDSKBMODE (Arg.val old.kb_mode),
    Call.ioctl fd Request.KDSETMODE (Arg.val KD_TEXT),
    Call.ioctl fd Request.VT_SETMODE
      (Arg.mode { mode := VT_AUTO, waitv := 0, relsig := 0, acqsig := 0, frsig := 0 }),
    Call.ioctl fd Request.VT_ACTIVATE (Arg.val old.vt),
    Call.close fd ]

/-- The restoration calls together with the answers of the mock kernel, the
first of them being call number `n` of the record. -/
def restoreEvents (env : Env) (n : Nat) (fd vt : Int) (old : OldState) : List Event :=
  [ Event.sys (Call.ioctl fd Request.VT_ACTIVATE (Arg.val vt))
      (env.kernel n (Call.ioctl fd Request.VT_ACTIVATE (Arg.val vt))),
    Event.sys (Call.ioctl fd Request.VT_WAITACTIVE (Arg.val vt))
      (env.kernel (n + 1) (Call.ioctl fd Request.VT_WAITACTIVE (Arg.val vt))),
    Event.sys (Call.ioctl fd Request.KDSKBMUTE (Arg.val 0))
      (env.kernel (n + 2) (Call.ioctl fd Request.KDSKBMUTE (Arg.val 0))),
    Event.sys (Call.ioctl fd Request.KDSKBMODE (Arg.val old.kb_mode))
      (env.kernel (n + 3) (Call.ioctl fd Request.KDSKBMODE (Arg.val old.kb_mode))),
    Event.sys (Call.ioctl fd Request.KDSETMODE (Arg.val KD_TEXT))
      (env.kernel (n + 4) (Call.ioctl fd Request.KDSETMODE (Arg.val KD_TEXT))),
    Event.sys (Call.ioctl fd Request.VT_SETMODE
        (Arg.mode { mode := VT_AUTO, waitv := 0, relsig := 0, acqsig := 0, frsig := 0 }))
      (env.kernel (n + 5) (Call.ioctl fd Request.VT_SETMODE
        (Arg.mode { mode := VT_AUTO, waitv := 0, relsig := 0, acqsig := 0, frsig := 0 }))),
    Event.sys (Call.ioctl fd Request.VT_ACTIVATE (Arg.val old.vt))
      (env.kernel (n + 6) (Call.ioctl fd Request.VT_ACTIVATE (Arg.val old.vt))),
    Event.sys (Call.close fd) (env.kernel (n + 7) (Call.close fd)) ]

/-- The order of the kernel calls of a claim in which every step succeeds, on
descriptor `fd` of VT `vt`; `fallback` says whether K_OFF had to be used. -/
def claimOrder (fd : Int) (replace_vt : Bool) (vt : Int) (fallback : Bool) : List Call :=
  [Call.fstat fd]
  ++ (if replace_vt then [] else [Call.ioctl fd Request.KDGETMODE Arg.out])
  ++ [ Call.ioctl fd Request.VT_GETSTATE Arg.out,
       Call.ioctl fd Request.VT_ACTIVATE (Arg.val vt),
       Call.ioctl fd Request.VT_WAITACTIVE (Arg.val vt),
       Call.ioctl fd Request.KDGKBMODE Arg.out,
       Call.ioctl fd Request.KDSKBMUTE (Arg.val 1) ]
  ++ (if fallback then [Call.ioctl fd Request.KDSKBMODE (Arg.val K_OFF)] else [])
  ++ [ Call.ioctl fd Request.KDSETMODE (Arg.val KD_GRAPHICS),
       Call.ioctl fd Request.VT_SETMODE
         (Arg.mode { mode := VT_PROCESS, waitv := 0, relsig := SIGUSR1, acqsig := SIGUSR2,
                     frsig := 0 }) ]

/-- Whether a recorded claim step failed: fstat fails when it returns -1 or the
device is not a console with a non-zero VT number, the text-mode check when the
query returns -1 or reports another mode, KDGKBMODE when it returns anything
but 0, every other call when it returns -1; a KDSKBMUTE that returns -1 is not
yet a failure of the mute step, which then falls back to K_OFF. -/
def stepFailed : Event → Bool
  | Event.sys (Call.fstat _) r =>
      r.ret = -1 || r.major ≠ TTY_MAJOR || int_of_unsigned r.minor = 0
  | Event.sys (Call.ioctl _ Request.KDGETMODE _) r => r.ret = -1 || r.out ≠ KD_TEXT
  | Event.sys (Call.ioctl _ Request.KDGKBMODE _) r => r.ret ≠ 0
  | Event.sys (Call.ioctl _ Request.KDSKBMUTE _) _ => false
  | Event.sys _ r => r.ret = -1
  | _ => false

/-- Whether a kernel call is a VT_RELDISP acknowledgement. -/
def isRelDisp : Call → Bool
  | Call.ioctl _ Request.VT_RELDISP _ => true
  | _ => false

/-- A finite sequence of switch requests, one `wlc_tty_activate_vt` per target. -/
def request_switches (env : Env) (w : World) (targets : List Int) : World :=
  targets.foldl (fun w vt => (wlc_tty_activate_vt env w vt).2) w

/-! ## Properties of a claim run

Each is a predicate on the result of `setup_tty`, so that it can be followed
along the branches of the function. -/

/-- The claim calls of the run are the first `m` of the success order, no step
before the last failed, and the run either returned true after the whole order
with no failed step, or ended at a failed step with none of the later steps of
the order issued afterwards. -/
def FollowsOrder (env : Env) (w : World) (fd : Int) (replace_vt : Bool)
    (r : Outcome Bool × World) : Prop :=
  ∃ m : Nat, ∃ fallback : Bool,
    kernelCalls ((issued w r.2).take m)
      = (claimOrder fd replace_vt
          (int_of_unsigned (env.kernel w.log.length (Call.fstat fd)).minor) fallback).take m
    ∧ (∀ e ∈ ((issued w r.2).take m).dropLast, stepFailed e = false)
    ∧ (fallback = true ↔
        ∃ mute, Event.sys (Call.ioctl fd Request.KDSKBMUTE (Arg.val 1)) mute ∈ (issued w r.2).take m
          ∧ mute.ret = -1)
    ∧ ((r.1 = Outcome.ret true
          ∧ kernelCalls (issued w r.2)
              = claimOrder fd replace_vt
                  (int_of_unsigned (env.kernel w.log.length (Call.fstat fd)).minor) fallback
          ∧ ∀ e ∈ issued w r.2, stepFailed e = false)
       ∨ ((∃ f, r.1 = Outcome.died f)
          ∧ (∃ e, ((issued w r.2).take m).getLast? = some e ∧ stepFailed e = true)
          ∧ ∀ c ∈ (claimOrder fd replace_vt
                    (int_of_unsigned (env.kernel w.log.length (Call.fstat fd)).minor)
                    fallback).drop m,
              c ∉ kernelCalls ((issued w r.2).drop m)))

/-- After a claim that returned true, the session record holds the descriptor,
the converted minor number of the device, the `v_active` the kernel reported
and the keyboard mode as the store of KDGKBMODE left it, and a restoration run
right after it passes exactly those values back and leaves the empty record. -/
def RestoresSaved (env : Env) (w : World) (fd : Int) (r : Outcome Bool × World) : Prop :=
  r.1 = Outcome.ret true →
    (wlc_tty_terminate env r.2).wlc = Session.empty
    ∧ (∃ va kb, Event.sys (Call.ioctl fd Request.VT_GETSTATE Arg.out) va ∈ issued w r.2
          ∧ Event.sys (Call.ioctl fd Request.KDGKBMODE Arg.out) kb ∈ issued w r.2)
    ∧ ∀ va kb, Event.sys (Call.ioctl fd Request.VT_GETSTATE Arg.out) va ∈ issued w r.2 →
        Event.sys (Call.ioctl fd Request.KDGKBMODE Arg.out) kb ∈ issued w r.2 →
        r.2.wlc = { old_state := { kb_mode := store_int_in_long w.wlc.old_state.kb_mode kb.out,
                                   vt := va.out },
                    tty := fd,
                    vt := int_of_unsigned (env.kernel w.log.length (Call.fstat fd)).minor }
        ∧ kernelCalls (issued r.2 (wlc_tty_terminate env r.2))
            = restoreCalls fd (int_of_unsigned (env.kernel w.log.length (Call.fstat fd)).minor)
                { kb_mode := store_int_in_long w.wlc.old_state.kb_mode kb.out, vt := va.out }

/-- A claim run whose record holds a failed step of those that follow the
claim (the K_OFF fallback, KDSETMODE(KD_GRAPHICS) or VT_SETMODE(VT_PROCESS),
answered with `r`) died at one of these three steps, with the empty session
record, the last eight recorded calls being the restoration with the values
saved during the claim, and the call before them being a failed step. -/
def RestoredOnFailure (env : Env) (w : World) (fd : Int) (a : Reply)
    (r : Outcome Bool × World) : Prop :=
  a.ret = -1 →
  (Event.sys (Call.ioctl fd Request.KDSKBMODE (Arg.val K_OFF)) a ∈ issued w r.2
    ∨ Event.sys (Call.ioctl fd Request.KDSETMODE (Arg.val KD_GRAPHICS)) a ∈ issued w r.2
    ∨ Event.sys (Call.ioctl fd Request.VT_SETMODE
          (Arg.mode { mode := VT_PROCESS, waitv := 0, relsig := SIGUSR1, acqsig := SIGUSR2,
                      frsig := 0 })) a ∈ issued w r.2) →
    (r.1 = Outcome.died Fatal.could_not_set_keyboard_mode_to_K_OFF
      ∨ r.1 = Outcome.died Fatal.could_not_set_console_mode_to_KD_GRAPHICS
      ∨ r.1 = Outcome.died Fatal.could_not_set_vt_mode)
    ∧ r.2.wlc = Session.empty
    ∧ (∃ e, ((issued w r.2).take ((issued w r.2).length - 8)).getLast? = some e
          ∧ stepFailed e = true)
    ∧ ∃ va kb, Event.sys (Call.ioctl fd Request.VT_GETSTATE Arg.out) va ∈ issued w r.2
        ∧ Event.sys (Call.ioctl fd Request.KDGKBMODE Arg.out) kb ∈ issued w r.2
        ∧ kb.ret = 0
        ∧ kernelCalls ((issued w r.2).drop ((issued w r.2).length - 8))
            = restoreCalls fd (int_of_unsigned (env.kernel w.log.length (Call.fstat fd)).minor)
                { kb_mode := store_int_in_long w.wlc.old_state.kb_mode kb.out, vt := va.out }

/-- A claim that returned true owns the VT whose number is the converted minor
number of the device. -/
def OwnsMinor (env : Env) (w : World) (fd : Int) (r : Outcome Bool × World) : Prop :=
  r.1 = Outcome.ret true →
    r.2.wlc.vt = int_of_unsigned (env.kernel w.log.length (Call.fstat fd)).minor

/-! ## Mock kernels for the concrete runs -/

/-- The answer 0 with nothing stored. -/
def ok : Reply := { ret := 0, out := 0, major := 0, minor := 0 }

/-- The answer -1. -/
def failed : Reply := { ret := -1, out := 0, major := 0, minor := 0 }

/-- A mock kernel on which everything succeeds: the descriptor is tty7, the
console is in text mode, VT 1 is active and the keyboard mode is 3. -/
def okKernel : Nat → Call → Reply
  | _, Call.fstat _ => { ret := 0, out := 0, major := 4, minor := 7 }
  | _, Call.ioctl _ Request.KDGETMODE _ => { ret := 0, out := 0, major := 0, minor := 0 }
  | _, Call.ioctl _ Request.VT_GETSTATE _ => { ret := 0, out := 1, major := 0, minor := 0 }
  | _, Call.ioctl _ Request.KDGKBMODE _ => { ret := 0, out := 3, major := 0, minor := 0 }
  | _, _ => ok

/-- The mock kernel of a console that is already in graphics mode. -/
def graphicsKernel : Nat → Call → Reply
  | _, Call.ioctl _ Request.KDGETMODE _ => { ret := 0, out := 1, major := 0, minor := 0 }
  | n, c => okKernel n c

/-- A mock kernel that refuses to switch the console to graphics mode. -/
def noGraphicsKernel : Nat → Call → Reply
  | _, Call.ioctl _ Request.KDSETMODE _ => failed
  | n, c => okKernel n c

/-- A mock kernel that refuses both KDSKBMUTE and KDSKBMODE. -/
def noMuteKernel : Nat → Call → Reply
  | _, Call.ioctl _ Request.KDSKBMUTE _ => failed
  | _, Call.ioctl _ Request.KDSKBMODE _ => failed
  | n, c => okKernel n c

/-- A mock kernel that refuses VT_SETMODE. -/
def noProcessKernel : Nat → Call → Reply
  | _, Call.ioctl _ Request.VT_SETMODE _ => failed
  | n, c => okKernel n c

/-- A mock kernel that answers -1 to every call. -/
def deadKernel : Nat → Call → Reply :=
  fun _ _ => failed

/-- Mocks on which every call succeeds. -/
def okEnv : Env :=
  { kernel := okKernel, fd_activate := fun _ => true, fd_deactivate := fun _ => true }

/-- Mocks of a console already in graphics mode. -/
def graphicsEnv : Env :=
  { kernel := graphicsKernel, fd_activate := fun _ => true, fd_deactivate := fun _ => true }

/-- Mocks with a kernel that refuses graphics mode. -/
def noGraphicsEnv : Env :=
  { kernel := noGraphicsKernel, fd_activate := fun _ => true, fd_deactivate := fun _ => true }

/-- Mocks with a kernel that refuses to mute the keyboard. -/
def noMuteEnv : Env :=
  { kernel := noMuteKernel, fd_activate := fun _ => true, fd_deactivate := fun _ => true }

/-- Mocks with a kernel that refuses process-controlled switching. -/
def noProcessEnv : Env :=
  { kernel := noProcessKernel, fd_activate := fun _ => true, fd_deactivate := fun _ => true }

/-- Mocks on which every kernel call and every collaborator check fails. -/
def deadEnv : Env :=
  { kernel := deadKernel, fd_activate := fun _ => false, fd_deactivate := fun _ => false }

/-- The world at process start: the empty session, nothing recorded. -/
def w0 : World := { wlc := Session.empty, log := [] }

/-- A world with a claimed session: descriptor 5, VT 7, saved VT 1 and saved
keyboard mode 3. -/
def w7 : World :=
  { wlc := { old_state := { kb_mode := 3, vt := 1 }, tty := 5, vt := 7 }, log := [] }

/-! ## Shared lemmas -/

theorem int_of_unsigned_of_lt (n : Nat) (h : n < 2147483648) : int_of_unsigned n = (n : Int) := by
  have h1 : n % 4294967296 = n := Nat.mod_eq_of_lt (by omega)
  simp [int_of_unsigned, h1, h]

theorem store_int_in_long_of_range (old v : Int) (h1 : 0 ≤ old) (h2 : old < 4294967296)
    (h3 : 0 ≤ v) (h4 : v < 2147483648) : store_int_in_long old v = v := by
  unfold store_int_in_long
  omega

theorem kernelCalls_append (a b : List Event) :
    kernelCalls (a ++ b) = kernelCalls a ++ kernelCalls b := by
  induction a with
  | nil => rfl
  | cons e es ih => cases e <;> simp [kernelCalls, ih]

theorem ite_cases {α : Type} {P : α → Prop} {c : Prop} [Decidable c] {t e : α}
    (ht : c → P t) (he : ¬ c → P e) : P (ite c t e) := by
  split
  · exact ht ‹_›
  · exact he ‹_›

theorem issued_append (w : World) (s : Session) (evs : List Event) :
    issued w { wlc := s, log := w.log ++ evs } = evs := by
  simp [issued]

theorem issued_self (w : World) (s : Session) :
    issued w { wlc := s, log := w.log } = [] := by
  simp [issued]

theorem kernelCalls_restoreEvents (env : Env) (n : Nat) (fd vt : Int) (old : OldState) :
    kernelCalls (restoreEvents env n fd vt old) = restoreCalls fd vt old := by
  simp [restoreEvents, restoreCalls, kernelCalls]

theorem wlc_tty_terminate_open (env : Env) (w : World) (h : 0 ≤ w.wlc.tty) :
    wlc_tty_terminate env w
      = { wlc := Session.empty,
          log := w.log ++ restoreEvents env w.log.length w.wlc.tty w.wlc.vt w.wlc.old_state } := by
  simp [wlc_tty_terminate, h, ioctl, sys, restoreEvents, Nat.add_assoc]

theorem wlc_tty_terminate_closed (env : Env) (w : World) (h : w.wlc.tty < 0) :
    wlc_tty_terminate env w = { wlc := Session.empty, log := w.log } := by
  simp [wlc_tty_terminate, not_le.mpr h]

set_option maxHeartbeats 1000000 in
theorem setup_tty_followsOrder (env : Env) (w : World) (fd : Int) (replace_vt : Bool)
    (hfd : 0 ≤ fd) : FollowsOrder env w fd replace_vt (setup_tty env w fd replace_vt) := by
  have hfd' : ¬ fd < 0 := not_lt.mpr hfd
  simp only [setup_tty, setup_tty_claim, setup_tty_graphics, sys, ioctl, List.length_append,
    List.length_cons, List.length_nil, List.append_assoc, List.singleton_append, List.cons_append,
    List.nil_append, Nat.zero_add, Nat.reduceAdd, Nat.add_assoc, hfd', if_false]
  cases replace_vt <;> simp only [Bool.not_false, Bool.not_true, Bool.false_eq_true, if_true, if_false]
  · repeat' (first | refine ite_cases (fun _ => ?_) (fun _ => ?_))
    all_goals simp only [not_or, ne_eq, not_not, KD_TEXT, KD_GRAPHICS, K_OFF, VT_AUTO, VT_PROCESS, TTY_MAJOR] at *
    · refine ⟨1, false, ?_⟩
      simp [issued_append, kernelCalls, claimOrder, stepFailed, wlc_tty_terminate_open,
        restoreEvents, KD_TEXT, KD_GRAPHICS, K_OFF, VT_AUTO, VT_PROCESS, TTY_MAJOR, *]
    · refine ⟨1, false, ?_⟩
      simp [issued_append, kernelCalls, claimOrder, stepFailed, wlc_tty_terminate_open,
        restoreEvents, KD_TEXT, KD_GRAPHICS, K_OFF, VT_AUTO, VT_PROCESS, TTY_MAJOR, *]
    · refine ⟨2, false, ?_⟩
      simp [issued_append, kernelCalls, claimOrder, stepFailed, wlc_tty_terminate_open,
        restoreEvents, KD_TEXT, KD_GRAPHICS, K_OFF, VT_AUTO, VT_PROCESS, TTY_MAJOR, *]
    · refine ⟨2, false, ?_⟩
      simp [issued_append, kernelCalls, claimOrder, stepFailed, wlc_tty_terminate_open,
        restoreEvents, KD_TEXT, KD_GRAPHICS, K_OFF, VT_AUTO, VT_PROCESS, TTY_MAJOR, *]
    · refine ⟨3, false, ?_⟩
      simp [issued_append, kernelCalls, claimOrder, stepFailed, wlc_tty_terminate_open,
        restoreEvents, KD_TEXT, KD_GRAPHICS, K_OFF, VT_AUTO, VT_PROCESS, TTY_MAJOR, *]
    · refine ⟨4, false, ?_⟩
      simp [issued_append, kernelCalls, claimOrder, stepFailed, wlc_tty_terminate_open,
        restoreEvents, KD_TEXT, KD_GRAPHICS, K_OFF, VT_AUTO, VT_PROCESS, TTY_MAJOR, *]
    · refine ⟨5, false, ?_⟩
      simp [issued_append, kernelCalls, claimOrder, stepFailed, wlc_tty_terminate_open,
        restoreEvents, KD_TEXT, KD_GRAPHICS, K_OFF, VT_AUTO, VT_PROCESS, TTY_MAJOR, *]
    · refine ⟨6, false, ?_⟩
      simp [issued_append, kernelCalls, claimOrder, stepFailed, wlc_tty_terminate_open,
        restoreEvents, KD_TEXT, KD_GRAPHICS, K_OFF, VT_AUTO, VT_PROCESS, TTY_MAJOR, *]
    · refine ⟨8, true, ?_⟩
      simp [issued_append, kernelCalls, claimOrder, stepFailed, wlc_tty_terminate_open,
        restoreEvents, KD_TEXT, KD_GRAPHICS, K_OFF, VT_AUTO, VT_PROCESS, TTY_MAJOR, *]
    · refine ⟨9, true, ?_⟩
      simp [issued_append, kernelCalls, claimOrder, stepFailed, wlc_tty_terminate_open,
        restoreEvents, KD_TEXT, KD_GRAPHICS, K_OFF, VT_AUTO, VT_PROCESS, TTY_MAJOR, *]
    · refine ⟨10, true, ?_⟩
      simp [issued_append, kernelCalls, claimOrder, stepFailed, wlc_tty_terminate_open,
        restoreEvents, KD_TEXT, KD_GRAPHICS, K_OFF, VT_AUTO, VT_PROCESS, TTY_MAJOR, *]
    · refine ⟨10, true, ?_⟩
      simp [issued_append, kernelCalls, claimOrder, stepFailed, wlc_tty_terminate_open,
        restoreEvents, KD_TEXT, KD_GRAPHICS, K_OFF, VT_AUTO, VT_PROCESS, TTY_MAJOR, *]
    · refine ⟨8, false, ?_⟩
      simp [issued_append, kernelCalls, claimOrder, stepFailed, wlc_tty_terminate_open,
        restoreEvents, KD_TEXT, KD_GRAPHICS, K_OFF, VT_AUTO, VT_PROCESS, TTY_MAJOR, *]
    · refine ⟨9, false, ?_⟩
      simp [issued_append, kernelCalls, claimOrder, stepFailed, wlc_tty_terminate_open,
        restoreEvents, KD_TEXT, KD_GRAPHICS, K_OFF, VT_AUTO, VT_PROCESS, TTY_MAJOR, *]
    · refine ⟨9, false, ?_⟩
      simp [issued_append, kernelCalls, claimOrder, stepFailed, wlc_tty_terminate_open,
        restoreEvents, KD_TEXT, KD_GRAPHICS, K_OFF, VT_AUTO, VT_PROCESS, TTY_MAJOR, *]
  · repeat' (first | refine ite_cases (fun _ => ?_) (fun _ => ?_))
    all_goals simp only [not_or, ne_eq, not_not, KD_TEXT, KD_GRAPHICS, K_OFF, VT_AUTO, VT_PROCESS, TTY_MAJOR] at *
    · refine ⟨1, false, ?_⟩
      simp [issued_append, kernelCalls, claimOrder, stepFailed, wlc_tty_terminate_open,
        restoreEvents, KD_TEXT, KD_GRAPHICS, K_OFF, VT_AUTO, VT_PROCESS, TTY_MAJOR, *]
    · refine ⟨1, false, ?_⟩
      simp [issued_append, kernelCalls, claimOrder, stepFailed, wlc_tty_terminate_open,
        restoreEvents, KD_TEXT, KD_GRAPHICS, K_OFF, VT_AUTO, VT_PROCESS, TTY_MAJOR, *]
    · refine ⟨2, false, ?_⟩
      simp [issued_append, kernelCalls, claimOrder, stepFailed, wlc_tty_terminate_open,
        restoreEvents, KD_TEXT, KD_GRAPHICS, K_OFF, VT_AUTO, VT_PROCESS, TTY_MAJOR, *]
    · refine ⟨3, false, ?_⟩
      simp [issued_append, kernelCalls, claimOrder, stepFailed, wlc_tty_terminate_open,
        restoreEvents, KD_TEXT, KD_GRAPHICS, K_OFF, VT_AUTO, VT_PROCESS, TTY_MAJOR, *]
    · refine ⟨4, false, ?_⟩
      simp [issued_append, kernelCalls, claimOrder, stepFailed, wlc_tty_terminate_open,
        restoreEvents, KD_TEXT, KD_GRAPHICS, K_OFF, VT_AUTO, VT_PROCESS, TTY_MAJOR, *]
    · refine ⟨5, false, ?_⟩
      simp [issued_append, kernelCalls, claimOrder, stepFailed, wlc_tty_terminate_open,
        restoreEvents, KD_TEXT, KD_GRAPHICS, K_OFF, VT_AUTO, VT_PROCESS, TTY_MAJOR, *]
    · refine ⟨7, true, ?_⟩
      simp [issued_append, kernelCalls, claimOrder, stepFailed, wlc_tty_terminate_open,
        restoreEvents, KD_TEXT, KD_GRAPHICS, K_OFF, VT_AUTO, VT_PROCESS, TTY_MAJOR, *]
    · refine ⟨8, true, ?_⟩
      simp [issued_append, kernelCalls, claimOrder, stepFailed, wlc_tty_terminate_open,
        restoreEvents, KD_TEXT, KD_GRAPHICS, K_OFF, VT_AUTO, VT_PROCESS, TTY_MAJOR, *]
    · refine ⟨9, true, ?_⟩
      simp [issued_append, kernelCalls, claimOrder, stepFailed, wlc_tty_terminate_open,
        restoreEvents, KD_TEXT, KD_GRAPHICS, K_OFF, VT_AUTO, VT_PROCESS, TTY_MAJOR, *]
    · refine ⟨9, true, ?_⟩
      simp [issued_append, kernelCalls, claimOrder, stepFailed, wlc_tty_terminate_open,
        restoreEvents, KD_TEXT, KD_GRAPHICS, K_OFF, VT_AUTO, VT_PROCESS, TTY_MAJOR, *]
    · refine ⟨7, false, ?_⟩
      simp [issued_append, kernelCalls, claimOrder, stepFailed, wlc_tty_terminate_open,
        restoreEvents, KD_TEXT, KD_GRAPHICS, K_OFF, VT_AUTO, VT_PROCESS, TTY_MAJOR, *]
    · refine ⟨8, false, ?_⟩
      simp [issued_append, kernelCalls, claimOrder, stepFailed, wlc_tty_terminate_open,
        restoreEvents, KD_TEXT, KD_GRAPHICS, K_OFF, VT_AUTO, VT_PROCESS, TTY_MAJOR, *]
    · refine ⟨8, false, ?_⟩
      simp [issued_append, kernelCalls, claimOrder, stepFailed, wlc_tty_terminate_open,
        restoreEvents, KD_TEXT, KD_GRAPHICS, K_OFF, VT_AUTO, VT_PROCESS, TTY_MAJOR, *]

theorem setup_tty_ownsMinor (env : Env) (w : World) (fd : Int) (replace_vt : Bool) :
    OwnsMinor env w fd (setup_tty env w fd replace_vt) := by
  simp only [setup_tty, setup_tty_claim, setup_tty_graphics, sys, ioctl, List.length_append,
    List.length_cons, List.length_nil, List.append_assoc, List.singleton_append, List.cons_append,
    List.nil_append, Nat.zero_add, Nat.reduceAdd, Nat.add_assoc]
  cases replace_vt <;>
    simp only [Bool.not_false, Bool.not_true, Bool.false_eq_true, if_true, if_false] <;>
    repeat' (first | refine ite_cases (fun _ => ?_) (fun _ => ?_))
  all_goals simp [OwnsMinor]

theorem setup_tty_restoresSaved (env : Env) (w : World) (fd : Int) (replace_vt : Bool) :
    RestoresSaved env w fd (setup_tty env w fd replace_vt) := by
  simp only [setup_tty, setup_tty_claim, setup_tty_graphics, sys, ioctl, List.length_append,
    List.length_cons, List.length_nil, List.append_assoc, List.singleton_append, List.cons_append,
    List.nil_append, Nat.zero_add, Nat.reduceAdd, Nat.add_assoc]
  refine ite_cases (fun _ => ?_) (fun hfd' => ?_)
  · simp [RestoresSaved]
  have hfd : 0 ≤ fd := not_lt.mp hfd'
  cases replace_vt <;>
    simp only [Bool.not_false, Bool.not_true, Bool.false_eq_true, if_true, if_false] <;>
    repeat' (first | refine ite_cases (fun _ => ?_) (fun _ => ?_))
  all_goals first
    | (intro h; simp at h; done)
    | (intro _
       simp [issued_append, issued, wlc_tty_terminate_open, hfd, kernelCalls_restoreEvents])

theorem setup_tty_restoredOnFailure (env : Env) (w : World) (fd : Int) (replace_vt : Bool)
    (a : Reply) :
    RestoredOnFailure env w fd a (setup_tty env w fd replace_vt) := by
  simp only [setup_tty, setup_tty_claim, setup_tty_graphics, sys, ioctl, List.length_append,
    List.length_cons, List.length_nil, List.append_assoc, List.singleton_append, List.cons_append,
    List.nil_append, Nat.zero_add, Nat.reduceAdd, Nat.add_assoc]
  refine ite_cases (fun _ => ?_) (fun hfd' => ?_)
  · simp [RestoredOnFailure, issued]
  have hfd : 0 ≤ fd := not_lt.mp hfd'
  cases replace_vt <;>
    simp only [Bool.not_false, Bool.not_true, Bool.false_eq_true, if_true, if_false] <;>
    repeat' (first | refine ite_cases (fun _ => ?_) (fun _ => ?_))
  all_goals simp only [not_or, ne_eq, not_not, KD_TEXT, KD_GRAPHICS, K_OFF, VT_AUTO, VT_PROCESS,
    TTY_MAJOR, RestoredOnFailure] at *
  all_goals first
    | (intro ha hmem
       rcases hmem with h | h | h <;> simp [issued_append] at h <;> simp_all)
    | (intro _ _
       simp [issued_append, wlc_tty_terminate_open, hfd, restoreEvents, restoreCalls, kernelCalls,
         stepFailed, KD_TEXT, KD_GRAPHICS, K_OFF, VT_AUTO, VT_PROCESS, *])

theorem wlc_tty_activate_vt_wlc (env : Env) (w : World) (vt : Int) :
    (wlc_tty_activate_vt env w vt).2.wlc = w.wlc := by
  unfold wlc_tty_activate_vt
  split <;> simp [ioctl, sys]

theorem request_switches_wlc (env : Env) (targets : List Int) :
    ∀ w : World, (request_switches env w targets).wlc = w.wlc := by
  induction targets with
  | nil => intro w; rfl
  | cons vt rest ih =>
    intro w
    show (request_switches env (wlc_tty_activate_vt env w vt).2 rest).wlc = w.wlc
    rw [ih, wlc_tty_activate_vt_wlc]

/-! ## The claims -/

/-- C1: running wlc_tty_terminate twice leaves the same session record as
running it once, the second run records no call at all, and a run on the empty
record (tty = -1) changes nothing and records nothing. -/
theorem wlc_tty_terminate_idempotent (env : Env) (w : World) (h : List Event) :
    (wlc_tty_terminate env (wlc_tty_terminate env w)).wlc = (wlc_tty_terminate env w).wlc
    ∧ issued (wlc_tty_terminate env w) (wlc_tty_terminate env (wlc_tty_terminate env w)) = []
    ∧ (wlc_tty_terminate env w).wlc = Session.empty
    ∧ wlc_tty_terminate env { wlc := Session.empty, log := h }
        = { wlc := Session.empty, log := h } := by
  refine ⟨?_, ?_, ?_, ?_⟩
  · simp [wlc_tty_terminate]
  · simp [wlc_tty_terminate, Session.empty, issued]
  · simp [wlc_tty_terminate]
  · simp [wlc_tty_terminate, Session.empty]

/-- C3: with a non-empty descriptor, wlc_tty_terminate issues exactly the
eight restoration calls on that descriptor, in order and nothing else,
whatever the mock kernel answers to each of them. -/
theorem wlc_tty_terminate_calls (env : Env) (w : World) (h : 0 ≤ w.wlc.tty) :
    kernelCalls (issued w (wlc_tty_terminate env w))
      = [ Call.ioctl w.wlc.tty Request.VT_ACTIVATE (Arg.val w.wlc.vt),
          Call.ioctl w.wlc.tty Request.VT_WAITACTIVE (Arg.val w.wlc.vt),
          Call.ioctl w.wlc.tty Request.KDSKBMUTE (Arg.val 0),
          Call.ioctl w.wlc.tty Request.KDSKBMODE (Arg.val w.wlc.old_state.kb_mode),
          Call.ioctl w.wlc.tty Request.KDSETMODE (Arg.val KD_TEXT),
          Call.ioctl w.wlc.tty Request.VT_SETMODE
            (Arg.mode { mode := VT_AUTO, waitv := 0, relsig := 0, acqsig := 0, frsig := 0 }),
          Call.ioctl w.wlc.tty Request.VT_ACTIVATE (Arg.val w.wlc.old_state.vt),
          Call.close w.wlc.tty ]
    ∧ (issued w (wlc_tty_terminate env w)).length = 8 := by
  rw [wlc_tty_terminate_open env w h, issued_append, kernelCalls_restoreEvents]
  simp [restoreCalls, restoreEvents]

/-- C3, on a concrete run: a kernel that answers -1 to every call still
receives all eight restoration calls for the session on descriptor 5. -/
theorem wlc_tty_terminate_calls_witness :
    (0 : Int) ≤ w7.wlc.tty
    ∧ kernelCalls (issued w7 (wlc_tty_terminate deadEnv w7))
      = [ Call.ioctl 5 Request.VT_ACTIVATE (Arg.val 7),
          Call.ioctl 5 Request.VT_WAITACTIVE (Arg.val 7),
          Call.ioctl 5 Request.KDSKBMUTE (Arg.val 0),
          Call.ioctl 5 Request.KDSKBMODE (Arg.val 3),
          Call.ioctl 5 Request.KDSETMODE (Arg.val 0),
          Call.ioctl 5 Request.VT_SETMODE
            (Arg.mode { mode := 0, waitv := 0, relsig := 0, acqsig := 0, frsig := 0 }),
          Call.ioctl 5 Request.VT_ACTIVATE (Arg.val 1),
          Call.close 5 ] :=
  ⟨by decide, (wlc_tty_terminate_calls deadEnv w7 (by decide)).1⟩


/-- C2: when setup_tty returns true on a descriptor of the console major with
minor n > 0 (n within the range of int, the saved keyboard mode of the record
before the claim within 32 bits, as in the empty record), a wlc_tty_terminate
right after it leaves the empty session record; the claim recorded a
VT_GETSTATE answer and a KDGKBMODE answer, and for a keyboard mode that is a
non-negative int the session record held exactly their values and the
restoration passes them back: its calls are the restoration sequence for VT n
with the keyboard mode read by KDGKBMODE and the v_active read by
VT_GETSTATE. -/
theorem setup_tty_then_terminate (env : Env) (w : World) (fd : Int) (replace_vt : Bool) (n : Nat)
    (_hmajor : (env.kernel w.log.length (Call.fstat fd)).major = TTY_MAJOR)
    (hminor : (env.kernel w.log.length (Call.fstat fd)).minor = n) (_hn : 0 < n)
    (hbound : n < 2147483648)
    (hold : 0 ≤ w.wlc.old_state.kb_mode ∧ w.wlc.old_state.kb_mode < 4294967296)
    (hok : (setup_tty env w fd replace_vt).1 = Outcome.ret true) :
    (wlc_tty_terminate env (setup_tty env w fd replace_vt).2).wlc = Session.empty
    ∧ (∃ va kb,
        Event.sys (Call.ioctl fd Request.VT_GETSTATE Arg.out) va
            ∈ issued w (setup_tty env w fd replace_vt).2
        ∧ Event.sys (Call.ioctl fd Request.KDGKBMODE Arg.out) kb
            ∈ issued w (setup_tty env w fd replace_vt).2)
    ∧ ∀ va kb,
        Event.sys (Call.ioctl fd Request.VT_GETSTATE Arg.out) va
            ∈ issued w (setup_tty env w fd replace_vt).2 →
        Event.sys (Call.ioctl fd Request.KDGKBMODE Arg.out) kb
            ∈ issued w (setup_tty env w fd replace_vt).2 →
        0 ≤ kb.out → kb.out < 2147483648 →
        (setup_tty env w fd replace_vt).2.wlc
            = { old_state := { kb_mode := kb.out, vt := va.out }, tty := fd, vt := n }
        ∧ kernelCalls (issued (setup_tty env w fd replace_vt).2
              (wlc_tty_terminate env (setup_tty env w fd replace_vt).2))
            = [ Call.ioctl fd Request.VT_ACTIVATE (Arg.val n),
                Call.ioctl fd Request.VT_WAITACTIVE (Arg.val n),
                Call.ioctl fd Request.KDSKBMUTE (Arg.val 0),
                Call.ioctl fd Request.KDSKBMODE (Arg.val kb.out),
                Call.ioctl fd Request.KDSETMODE (Arg.val KD_TEXT),
                Call.ioctl fd Request.VT_SETMODE
                  (Arg.mode { mode := VT_AUTO, waitv := 0, relsig := 0, acqsig := 0, frsig := 0 }),
                Call.ioctl fd Request.VT_ACTIVATE (Arg.val va.out),
                Call.close fd ] := by
  subst hminor
  obtain ⟨h1, h2, h3⟩ := setup_tty_restoresSaved env w fd replace_vt hok
  refine ⟨h1, h2, fun va kb hva hkb hlo hhi => ?_⟩
  have h := h3 va kb hva hkb
  rw [int_of_unsigned_of_lt _ hbound,
    store_int_in_long_of_range _ _ hold.1 hold.2 hlo hhi] at h
  exact h

/-- C2, on a concrete run: claiming tty7 on descriptor 5 while VT 1 is active
and the keyboard mode is 3, then restoring, ends in the empty record and hands
3 to KDSKBMODE and 1 to the last VT_ACTIVATE. -/
theorem setup_tty_then_terminate_witness :
    (wlc_tty_terminate okEnv (setup_tty okEnv w0 5 false).2).wlc = Session.empty
    ∧ kernelCalls (issued (setup_tty okEnv w0 5 false).2
          (wlc_tty_terminate okEnv (setup_tty okEnv w0 5 false).2))
        = [ Call.ioctl 5 Request.VT_ACTIVATE (Arg.val 7),
            Call.ioctl 5 Request.VT_WAITACTIVE (Arg.val 7),
            Call.ioctl 5 Request.KDSKBMUTE (Arg.val 0),
            Call.ioctl 5 Request.KDSKBMODE (Arg.val 3),
            Call.ioctl 5 Request.KDSETMODE (Arg.val KD_TEXT),
            Call.ioctl 5 Request.VT_SETMODE
              (Arg.mode { mode := VT_AUTO, waitv := 0, relsig := 0, acqsig := 0, frsig := 0 }),
            Call.ioctl 5 Request.VT_ACTIVATE (Arg.val 1),
            Call.close 5 ] :=
  ⟨(setup_tty_then_terminate okEnv w0 5 false 7 (by decide) (by decide) (by decide)
      (by decide) (by decide) (by decide)).1,
   ((setup_tty_then_terminate okEnv w0 5 false 7 (by decide) (by decide) (by decide)
      (by decide) (by decide) (by decide)).2.2 { ret := 0, out := 1, major := 0, minor := 0 }
      { ret := 0, out := 3, major := 0, minor := 0 } (by decide) (by decide) (by decide)
      (by decide)).2⟩

/-- C4: wlc_tty_activate_vt returns false and records no call when no
session is active (tty < 0) or the target is the owned VT; otherwise it
records exactly one call, VT_ACTIVATE(target) on the session descriptor, and
returns true when the kernel's answer is not -1 (false when it is -1). -/
theorem wlc_tty_activate_vt_result (env : Env) (w : World) (vt : Int) :
    (w.wlc.tty < 0 ∨ vt = w.wlc.vt → wlc_tty_activate_vt env w vt = (false, w))
    ∧ (¬ (w.wlc.tty < 0 ∨ vt = w.wlc.vt) →
        issued w (wlc_tty_activate_vt env w vt).2
          = [ Event.sys (Call.ioctl w.wlc.tty Request.VT_ACTIVATE (Arg.val vt))
                (env.kernel w.log.length (Call.ioctl w.wlc.tty Request.VT_ACTIVATE (Arg.val vt))) ]
        ∧ ((env.kernel w.log.length
              (Call.ioctl w.wlc.tty Request.VT_ACTIVATE (Arg.val vt))).ret ≠ -1 →
            (wlc_tty_activate_vt env w vt).1 = true)
        ∧ ((env.kernel w.log.length
              (Call.ioctl w.wlc.tty Request.VT_ACTIVATE (Arg.val vt))).ret = -1 →
            (wlc_tty_activate_vt env w vt).1 = false)) := by
  refine ⟨fun h => ?_, fun h => ?_⟩
  · simp [wlc_tty_activate_vt, h]
  · simp [wlc_tty_activate_vt, h, ioctl, sys, issued]

/-- C4, on concrete runs: without a session the request for VT 3 returns false
and changes nothing; for the owned VT 7 it returns false; for VT 3 with the
session on descriptor 5 it returns true on an accepting kernel and false on a
kernel that answers -1. -/
theorem wlc_tty_activate_vt_result_witness :
    wlc_tty_activate_vt okEnv w0 3 = (false, w0)
    ∧ wlc_tty_activate_vt okEnv w7 7 = (false, w7)
    ∧ (wlc_tty_activate_vt okEnv w7 3).1 = true
    ∧ (wlc_tty_activate_vt deadEnv w7 3).1 = false :=
  ⟨(wlc_tty_activate_vt_result okEnv w0 3).1 (by decide),
   (wlc_tty_activate_vt_result okEnv w7 7).1 (by decide),
   ((wlc_tty_activate_vt_result okEnv w7 3).2 (by decide)).2.1 (by decide),
   ((wlc_tty_activate_vt_result deadEnv w7 3).2 (by decide)).2.2 (by decide)⟩

/-- C5 as stated fails: the record of sigusr_handler for SIGUSR1, on the
claimed session, holds the collaborator call only; the number of VT_RELDISP
calls in it is 0, not 1. -/
theorem sigusr_handler_no_ack :
    issued w7 (sigusr_handler w7 SIGUSR1) = [Event.wlc_set_active false]
    ∧ ¬ ((kernelCalls (issued w7 (sigusr_handler w7 SIGUSR1))).countP isRelDisp = 1) := by
  decide

/-- C5, amended: sigusr_handler for SIGUSR1 records the collaborator call
wlc_set_active(false) and nothing else, and leaves the session record alone;
the acknowledgement comes from wlc_tty_deactivate: when it runs after the
handler and the collaborator check succeeds, the record is the notification,
the check, and one VT_RELDISP(1) on the session descriptor, in this order. -/
theorem sigusr_handler_release (env : Env) (w : World) :
    issued w (sigusr_handler w SIGUSR1) = [Event.wlc_set_active false]
    ∧ (sigusr_handler w SIGUSR1).wlc = w.wlc
    ∧ (env.fd_deactivate (w.log.length + 1) = true →
        issued w (wlc_tty_deactivate env (sigusr_handler w SIGUSR1)).2
          = [ Event.wlc_set_active false,
              Event.wlc_fd_deactivate true,
              Event.sys (Call.ioctl w.wlc.tty Request.VT_RELDISP (Arg.val 1))
                (env.kernel (w.log.length + 2)
                  (Call.ioctl w.wlc.tty Request.VT_RELDISP (Arg.val 1))) ]) := by
  refine ⟨?_, ?_, fun h => ?_⟩
  · simp [sigusr_handler, wlc_set_active, issued]
  · simp [sigusr_handler, wlc_set_active]
  · simp [sigusr_handler, wlc_set_active, wlc_tty_deactivate, wlc_fd_deactivate, ioctl, sys,
      issued, h]

/-- C5 amended, on a concrete run: the release notification followed by
wlc_tty_deactivate on the claimed session records the notification, the check
and then the single acknowledgement. -/
theorem sigusr_handler_release_witness :
    issued w7 (wlc_tty_deactivate okEnv (sigusr_handler w7 SIGUSR1)).2
      = [ Event.wlc_set_active false,
          Event.wlc_fd_deactivate true,
          Event.sys (Call.ioctl 5 Request.VT_RELDISP (Arg.val 1)) ok ] :=
  (sigusr_handler_release okEnv w7).2.2 (by decide)

/-- C6: wlc_tty_deactivate and wlc_tty_activate call the collaborator check
first; when it returns false the operation dies and records no kernel call;
when it returns true the operation returns and its only kernel call is
VT_RELDISP on the session descriptor, with 1 for deactivate and VT_ACKACQ for
activate. -/
theorem wlc_tty_switch_ack (env : Env) (w : World) :
    ((issued w (wlc_tty_deactivate env w).2).head?
        = some (Event.wlc_fd_deactivate (env.fd_deactivate w.log.length))
      ∧ (env.fd_deactivate w.log.length = false →
          (wlc_tty_deactivate env w).1 = Outcome.died Fatal.failed_to_release_tty
          ∧ kernelCalls (issued w (wlc_tty_deactivate env w).2) = [])
      ∧ (env.fd_deactivate w.log.length = true →
          (wlc_tty_deactivate env w).1 = Outcome.ret ()
          ∧ kernelCalls (issued w (wlc_tty_deactivate env w).2)
              = [Call.ioctl w.wlc.tty Request.VT_RELDISP (Arg.val 1)]))
    ∧ ((issued w (wlc_tty_activate env w).2).head?
        = some (Event.wlc_fd_activate (env.fd_activate w.log.length))
      ∧ (env.fd_activate w.log.length = false →
          (wlc_tty_activate env w).1 = Outcome.died Fatal.failed_to_activate_tty
          ∧ kernelCalls (issued w (wlc_tty_activate env w).2) = [])
      ∧ (env.fd_activate w.log.length = true →
          (wlc_tty_activate env w).1 = Outcome.ret ()
          ∧ kernelCalls (issued w (wlc_tty_activate env w).2)
              = [Call.ioctl w.wlc.tty Request.VT_RELDISP (Arg.val VT_ACKACQ)])) := by
  refine ⟨⟨?_, fun h => ?_, fun h => ?_⟩, ⟨?_, fun h => ?_, fun h => ?_⟩⟩
  · cases h : env.fd_deactivate w.log.length <;>
      simp [wlc_tty_deactivate, wlc_fd_deactivate, ioctl, sys, issued, h]
  · simp [wlc_tty_deactivate, wlc_fd_deactivate, issued, kernelCalls, h]
  · simp [wlc_tty_deactivate, wlc_fd_deactivate, ioctl, sys, issued, kernelCalls, h]
  · cases h : env.fd_activate w.log.length <;>
      simp [wlc_tty_activate, wlc_fd_activate, ioctl, sys, issued, h]
  · simp [wlc_tty_activate, wlc_fd_activate, issued, kernelCalls, h]
  · simp [wlc_tty_activate, wlc_fd_activate, ioctl, sys, issued, kernelCalls, h]

/-- C6, on concrete runs: with a refusing collaborator both operations die
without a kernel call; with an accepting one deactivate sends VT_RELDISP(1)
and activate sends VT_RELDISP(2) on descriptor 5. -/
theorem wlc_tty_switch_ack_witness :
    ((wlc_tty_deactivate deadEnv w7).1 = Outcome.died Fatal.failed_to_release_tty
      ∧ kernelCalls (issued w7 (wlc_tty_deactivate deadEnv w7).2) = [])
    ∧ ((wlc_tty_deactivate okEnv w7).1 = Outcome.ret ()
      ∧ kernelCalls (issued w7 (wlc_tty_deactivate okEnv w7).2)
          = [Call.ioctl 5 Request.VT_RELDISP (Arg.val 1)])
    ∧ ((wlc_tty_activate deadEnv w7).1 = Outcome.died Fatal.failed_to_activate_tty
      ∧ kernelCalls (issued w7 (wlc_tty_activate deadEnv w7).2) = [])
    ∧ ((wlc_tty_activate okEnv w7).1 = Outcome.ret ()
      ∧ kernelCalls (issued w7 (wlc_tty_activate okEnv w7).2)
          = [Call.ioctl 5 Request.VT_RELDISP (Arg.val 2)]) :=
  ⟨(wlc_tty_switch_ack deadEnv w7).1.2.1 (by decide),
   (wlc_tty_switch_ack okEnv w7).1.2.2 (by decide),
   (wlc_tty_switch_ack deadEnv w7).2.2.1 (by decide),
   (wlc_tty_switch_ack okEnv w7).2.2.2 (by decide)⟩

/-- C7: a failure of any step after the session is claimed runs the
restoration before the fatal exit.  Whenever the record of setup_tty holds a
K_OFF fallback, a KDSETMODE(KD_GRAPHICS) or a VT_SETMODE(VT_PROCESS) that the
kernel answered with -1, the run died at one of these three steps; the
keyboard mode had been read (KDGKBMODE returned 0), the last eight recorded
calls are the restoration sequence with the values saved during the claim,
the call right before them is a failed step, and the session record at the
exit is the empty one. -/
theorem setup_tty_failure_after_claim (env : Env) (w : World) (fd : Int) (replace_vt : Bool)
    (a : Reply) (ha : a.ret = -1)
    (hfail :
      Event.sys (Call.ioctl fd Request.KDSKBMODE (Arg.val K_OFF)) a
          ∈ issued w (setup_tty env w fd replace_vt).2
      ∨ Event.sys (Call.ioctl fd Request.KDSETMODE (Arg.val KD_GRAPHICS)) a
          ∈ issued w (setup_tty env w fd replace_vt).2
      ∨ Event.sys (Call.ioctl fd Request.VT_SETMODE
            (Arg.mode { mode := VT_PROCESS, waitv := 0, relsig := SIGUSR1, acqsig := SIGUSR2,
                        frsig := 0 })) a
          ∈ issued w (setup_tty env w fd replace_vt).2) :
    ((setup_tty env w fd replace_vt).1
        = Outcome.died Fatal.could_not_set_keyboard_mode_to_K_OFF
      ∨ (setup_tty env w fd replace_vt).1
        = Outcome.died Fatal.could_not_set_console_mode_to_KD_GRAPHICS
      ∨ (setup_tty env w fd replace_vt).1 = Outcome.died Fatal.could_not_set_vt_mode)
    ∧ (setup_tty env w fd replace_vt).2.wlc = Session.empty
    ∧ (∃ e, ((issued w (setup_tty env w fd replace_vt).2).take
              ((issued w (setup_tty env w fd replace_vt).2).length - 8)).getLast? = some e
          ∧ stepFailed e = true)
    ∧ ∃ va kb,
        Event.sys (Call.ioctl fd Request.VT_GETSTATE Arg.out) va
          ∈ issued w (setup_tty env w fd replace_vt).2
        ∧ Event.sys (Call.ioctl fd Request.KDGKBMODE Arg.out) kb
          ∈ issued w (setup_tty env w fd replace_vt).2
        ∧ kb.ret = 0
        ∧ kernelCalls ((issued w (setup_tty env w fd replace_vt).2).drop
              ((issued w (setup_tty env w fd replace_vt).2).length - 8))
            = [ Call.ioctl fd Request.VT_ACTIVATE
                  (Arg.val (int_of_unsigned (env.kernel w.log.length (Call.fstat fd)).minor)),
                Call.ioctl fd Request.VT_WAITACTIVE
                  (Arg.val (int_of_unsigned (env.kernel w.log.length (Call.fstat fd)).minor)),
                Call.ioctl fd Request.KDSKBMUTE (Arg.val 0),
                Call.ioctl fd Request.KDSKBMODE
                  (Arg.val (store_int_in_long w.wlc.old_state.kb_mode kb.out)),
                Call.ioctl fd Request.KDSETMODE (Arg.val KD_TEXT),
                Call.ioctl fd Request.VT_SETMODE
                  (Arg.mode { mode := VT_AUTO, waitv := 0, relsig := 0, acqsig := 0, frsig := 0 }),
                Call.ioctl fd Request.VT_ACTIVATE (Arg.val va.out),
                Call.close fd ] :=
  setup_tty_restoredOnFailure env w fd replace_vt a ha hfail

/-- C7, on concrete runs, one for each step after the claim: on a kernel that
refuses both mute calls the claim of tty7 dies at the mute step, on a kernel
that refuses KDSETMODE at the graphics step, on a kernel that refuses
VT_SETMODE at the switch-mode step, each time with the empty session record. -/
theorem setup_tty_failure_after_claim_witness :
    ((setup_tty noMuteEnv w0 5 false).1
        = Outcome.died Fatal.could_not_set_keyboard_mode_to_K_OFF
      ∧ (setup_tty noMuteEnv w0 5 false).2.wlc = Session.empty)
    ∧ ((setup_tty noGraphicsEnv w0 5 false).1
        = Outcome.died Fatal.could_not_set_console_mode_to_KD_GRAPHICS
      ∧ (setup_tty noGraphicsEnv w0 5 false).2.wlc = Session.empty)
    ∧ ((setup_tty noProcessEnv w0 5 true).1 = Outcome.died Fatal.could_not_set_vt_mode
      ∧ (setup_tty noProcessEnv w0 5 true).2.wlc = Session.empty) :=
  ⟨⟨by decide,
    (setup_tty_failure_after_claim noMuteEnv w0 5 false failed (by decide)
      (Or.inl (by decide))).2.1⟩,
   ⟨by decide,
    (setup_tty_failure_after_claim noGraphicsEnv w0 5 false failed (by decide)
      (Or.inr (Or.inl (by decide)))).2.1⟩,
   ⟨by decide,
    (setup_tty_failure_after_claim noProcessEnv w0 5 true failed (by decide)
      (Or.inr (Or.inr (by decide)))).2.1⟩⟩

/-- C8 as stated fails: on tty7 with a console already in graphics mode and
replace_vt = false, setup_tty dies at the graphics-mode check with the
descriptor still -1 but with vt already set to 7, so the session record is not
the empty one and "descriptor open iff vt non-zero" does not hold there. -/
theorem already_graphics_leaves_vt_set :
    (setup_tty graphicsEnv w0 5 false).1 = Outcome.died Fatal.already_in_graphics_mode
    ∧ ¬ ((setup_tty graphicsEnv w0 5 false).2.wlc.tty = -1
          ∧ (setup_tty graphicsEnv w0 5 false).2.wlc.vt = 0)
    ∧ ¬ (0 ≤ (setup_tty graphicsEnv w0 5 false).2.wlc.tty
          ↔ (setup_tty graphicsEnv w0 5 false).2.wlc.vt ≠ 0) := by
  decide

/-- C8, amended: with replace_vt = false, on a descriptor of the console major
with minor n ≠ 0 (n within the range of int) whose console mode the kernel
reports as other than KD_TEXT, setup_tty dies at the graphics-mode check; only
fstat and KDGETMODE were issued, and the session record is the one before the
call (descriptor and saved values untouched) except that vt is already n. -/
theorem setup_tty_already_graphics (env : Env) (w : World) (fd : Int) (n : Nat)
    (hfd : 0 ≤ fd)
    (hstat : (env.kernel w.log.length (Call.fstat fd)).ret ≠ -1)
    (hmajor : (env.kernel w.log.length (Call.fstat fd)).major = TTY_MAJOR)
    (hminor : (env.kernel w.log.length (Call.fstat fd)).minor = n) (hn : n ≠ 0)
    (hbound : n < 2147483648)
    (hget : (env.kernel (w.log.length + 1) (Call.ioctl fd Request.KDGETMODE Arg.out)).ret ≠ -1)
    (hmode : (env.kernel (w.log.length + 1) (Call.ioctl fd Request.KDGETMODE Arg.out)).out
        ≠ KD_TEXT) :
    (setup_tty env w fd false).1 = Outcome.died Fatal.already_in_graphics_mode
    ∧ issued w (setup_tty env w fd false).2
        = [ Event.sys (Call.fstat fd) (env.kernel w.log.length (Call.fstat fd)),
            Event.sys (Call.ioctl fd Request.KDGETMODE Arg.out)
              (env.kernel (w.log.length + 1) (Call.ioctl fd Request.KDGETMODE Arg.out)) ]
    ∧ (setup_tty env w fd false).2.wlc
        = { old_state := w.wlc.old_state, tty := w.wlc.tty, vt := n } := by
  have hfd' : ¬ fd < 0 := not_lt.mpr hfd
  have hn' : ¬ ((n : Int) = 0) := by exact_mod_cast hn
  subst hminor
  simp [setup_tty, sys, ioctl, issued, hfd', hstat, hmajor, hn', hget, hmode,
    int_of_unsigned_of_lt _ hbound]

/-- C8 amended, on a concrete run: the claim of tty7 on a console in graphics
mode dies at the check with the descriptor still -1 and vt equal to 7. -/
theorem setup_tty_already_graphics_witness :
    (setup_tty graphicsEnv w0 5 false).1 = Outcome.died Fatal.already_in_graphics_mode
    ∧ (setup_tty graphicsEnv w0 5 false).2.wlc
        = { old_state := { kb_mode := 0, vt := 0 }, tty := -1, vt := 7 } :=
  ⟨(setup_tty_already_graphics graphicsEnv w0 5 7 (by decide) (by decide) (by decide)
      (by decide) (by decide) (by decide) (by decide) (by decide)).1,
   (setup_tty_already_graphics graphicsEnv w0 5 7 (by decide) (by decide) (by decide)
      (by decide) (by decide) (by decide) (by decide) (by decide)).2.2⟩

/-- C9: on a valid descriptor, the claim calls of setup_tty are the first m
calls of the success order (fstat, KDGETMODE iff replace_vt is false,
VT_GETSTATE, VT_ACTIVATE(vt), VT_WAITACTIVE(vt), KDGKBMODE, KDSKBMUTE(1),
KDSKBMODE(K_OFF) iff the mute call returned -1, KDSETMODE(KD_GRAPHICS),
VT_SETMODE(VT_PROCESS, SIGUSR1, SIGUSR2)), vt being the minor number of the
device converted to int, with no failed step before the last; the run either
returns true, having issued the whole order and nothing else with no failed
step, or dies with the last claim call failed and none of the later calls of
the order issued after it. -/
theorem setup_tty_call_order (env : Env) (w : World) (fd : Int) (replace_vt : Bool)
    (hfd : 0 ≤ fd) :
    ∃ m : Nat, ∃ fallback : Bool,
      kernelCalls ((issued w (setup_tty env w fd replace_vt).2).take m)
        = (claimOrder fd replace_vt
            (int_of_unsigned (env.kernel w.log.length (Call.fstat fd)).minor) fallback).take m
      ∧ (∀ e ∈ ((issued w (setup_tty env w fd replace_vt).2).take m).dropLast,
          stepFailed e = false)
      ∧ (fallback = true ↔
          ∃ mute, Event.sys (Call.ioctl fd Request.KDSKBMUTE (Arg.val 1)) mute
              ∈ (issued w (setup_tty env w fd replace_vt).2).take m
            ∧ mute.ret = -1)
      ∧ (((setup_tty env w fd replace_vt).1 = Outcome.ret true
            ∧ kernelCalls (issued w (setup_tty env w fd replace_vt).2)
                = claimOrder fd replace_vt
                    (int_of_unsigned (env.kernel w.log.length (Call.fstat fd)).minor) fallback
            ∧ ∀ e ∈ issued w (setup_tty env w fd replace_vt).2, stepFailed e = false)
         ∨ ((∃ f, (setup_tty env w fd replace_vt).1 = Outcome.died f)
            ∧ (∃ e, ((issued w (setup_tty env w fd replace_vt).2).take m).getLast? = some e
                ∧ stepFailed e = true)
            ∧ ∀ c ∈ (claimOrder fd replace_vt
                      (int_of_unsigned (env.kernel w.log.length (Call.fstat fd)).minor)
                      fallback).drop m,
                c ∉ kernelCalls ((issued w (setup_tty env w fd replace_vt).2).drop m))) :=
  setup_tty_followsOrder env w fd replace_vt hfd

/-- C9, on a concrete run: the claim of tty7 on descriptor 5 follows the
order. -/
theorem setup_tty_call_order_witness :
    (0 : Int) ≤ 5 ∧ FollowsOrder okEnv w0 5 false (setup_tty okEnv w0 5 false) :=
  ⟨by decide, setup_tty_call_order okEnv w0 5 false (by decide)⟩

/-- C10: wlc_tty_activate_vt leaves the session record unchanged, so after a
setup_tty that returned true on a device with minor n (n within the range of
int), wlc_tty_get_vt returns n after any finite sequence of switch requests,
whatever the targets and whatever the kernel answers. -/
theorem wlc_tty_get_vt_stable (env : Env) (w : World) (fd : Int) (replace_vt : Bool) (n : Nat)
    (hminor : (env.kernel w.log.length (Call.fstat fd)).minor = n)
    (hbound : n < 2147483648)
    (hok : (setup_tty env w fd replace_vt).1 = Outcome.ret true)
    (env2 : Env) (targets : List Int) :
    wlc_tty_get_vt (setup_tty env w fd replace_vt).2 = n
    ∧ wlc_tty_get_vt (request_switches env2 (setup_tty env w fd replace_vt).2 targets) = n
    ∧ (request_switches env2 (setup_tty env w fd replace_vt).2 targets).wlc
        = (setup_tty env w fd replace_vt).2.wlc
    ∧ ∀ (w2 : World) (vt : Int), (wlc_tty_activate_vt env2 w2 vt).2.wlc = w2.wlc := by
  subst hminor
  have h := setup_tty_ownsMinor env w fd replace_vt hok
  rw [int_of_unsigned_of_lt _ hbound] at h
  refine ⟨h, ?_, request_switches_wlc env2 targets _, wlc_tty_activate_vt_wlc env2⟩
  simp only [wlc_tty_get_vt, request_switches_wlc]
  exact h

/-- C10, on a concrete run: after claiming tty7, requests to switch to VT 1,
2, 7 and 3, on a kernel that refuses all of them, leave the owned VT at 7. -/
theorem wlc_tty_get_vt_stable_witness :
    wlc_tty_get_vt (request_switches deadEnv (setup_tty okEnv w0 5 false).2 [1, 2, 7, 3]) = 7 :=
  (wlc_tty_get_vt_stable okEnv w0 5 false 7 (by decide) (by decide) (by decide) deadEnv
    [1, 2, 7, 3]).2.1

end Wlc
